import Mathlib

/-!
Verification development for the Discourse-User-Search-Directory theme
component.  The JavaScript sources are shallowly embedded as Lean
definitions: DOM cards are modelled by the data the code reads off them,
query strings by records of the parameters the code touches, and the
asynchronous polling loop by an explicit fuelled step machine whose clock
advances by the poll interval on every simulated sleep.
-/

namespace UserDirectory

/-- Whitespace predicate modelling the characters removed by the
JavaScript String.prototype.trim calls in the sources. -/
def jsWs (c : Char) : Bool :=
  c = ' ' || c = '\t' || c = '\n' || c = '\r' || c.toNat = 11 || c.toNat = 12

/-- Trim on character lists: drop leading and trailing whitespace. -/
def trimChars (l : List Char) : List Char :=
  ((l.dropWhile jsWs).reverse.dropWhile jsWs).reverse

/-- Model of the JavaScript value.trim() used on form fields and URL
parameters. -/
def jsTrim (s : String) : String :=
  String.mk (trimChars s.data)

/-- Model of the JavaScript username.toLowerCase() calls (character-wise
lower casing). -/
def jsToLower (s : String) : String :=
  String.mk (s.data.map Char.toLower)

theorem dropWhile_self (p : α → Bool) (l : List α) :
    (l.dropWhile p).dropWhile p = l.dropWhile p := by
  induction l with
  | nil => rfl
  | cons a t ih =>
    by_cases h : p a
    · simp [List.dropWhile_cons, h, ih]
    · simp [List.dropWhile_cons, h]

theorem length_dropWhile_le_self (p : α → Bool) (l : List α) :
    (l.dropWhile p).length ≤ l.length := by
  induction l with
  | nil => simp
  | cons a t ih =>
    by_cases h : p a
    · rw [List.dropWhile_cons, if_pos h]
      simp only [List.length_cons]
      omega
    · rw [List.dropWhile_cons, if_neg (by simp [h])]

theorem dropWhile_reverse_dropWhile (p : α → Bool) (m : List α)
    (hm : m.dropWhile p = m) :
    ((m.reverse.dropWhile p).reverse).dropWhile p = (m.reverse.dropWhile p).reverse := by
  have hsplit : m.reverse.takeWhile p ++ m.reverse.dropWhile p = m.reverse :=
    List.takeWhile_append_dropWhile p m.reverse
  cases hc : (m.reverse.dropWhile p).reverse with
  | nil => rfl
  | cons a t =>
    have hmeq : m = a :: (t ++ (m.reverse.takeWhile p).reverse) := by
      have h3 := congrArg List.reverse hsplit
      rw [List.reverse_append, List.reverse_reverse] at h3
      rw [hc] at h3
      simpa using h3.symm
    have hpa : p a = false := by
      by_contra hcon
      have hpa' : p a = true := by simpa using hcon
      have hdrop : m.dropWhile p = m := hm
      rw [hmeq, List.dropWhile_cons, if_pos hpa'] at hdrop
      have hle := length_dropWhile_le_self p (t ++ (m.reverse.takeWhile p).reverse)
      rw [hdrop] at hle
      simp at hle
    rw [List.dropWhile_cons, if_neg (by simp [hpa])]

theorem trimChars_idem (l : List Char) : trimChars (trimChars l) = trimChars l := by
  have hA : (l.dropWhile jsWs).dropWhile jsWs = l.dropWhile jsWs := dropWhile_self _ _
  have hB := dropWhile_reverse_dropWhile jsWs (l.dropWhile jsWs) hA
  unfold trimChars
  rw [hB, List.reverse_reverse, dropWhile_self]

theorem jsTrim_idem (s : String) : jsTrim (jsTrim s) = jsTrim s := by
  unfold jsTrim
  exact congrArg String.mk (trimChars_idem s.data)

-- ----------------------
-- Filters (buildFiltersFromForm, both variants have identical bodies)
-- ----------------------

/-- The four form fields as read by FormData.get: a missing field is
null, modelled by none; the code coerces with (x or empty).toString(). -/
structure FormValues where
  gender : Option String
  country : Option String
  listen : Option String
  share : Option String
deriving DecidableEq, Repr

/-- Result record of buildFiltersFromForm. -/
structure Filters where
  gender : String
  country : String
  listen : String
  share : String
  hasAnyFilter : Bool
deriving DecidableEq, Repr

/-- buildFiltersFromForm (user-directory-filters.js lines 104-113 and
921-930): trim each field, derive hasAnyFilter from string truthiness. -/
def buildFiltersFromForm (form : FormValues) : Filters :=
  let gender := jsTrim (form.gender.getD "")
  let country := jsTrim (form.country.getD "")
  let listen := jsTrim (form.listen.getD "")
  let share := jsTrim (form.share.getD "")
  { gender := gender, country := country, listen := listen, share := share,
    hasAnyFilter := (gender != "") || (country != "") || (listen != "") || (share != "") }

-- ----------------------
-- Search API request construction (fetchUsersPage)
-- ----------------------

/-- Module-level constant searchPerPage = 30 (line 17). -/
def searchPerPage : Nat := 30

/-- The query parameters fetchUsersPage (lines 119-131) puts into the
/user-search.json request.  An absent optional parameter is none. -/
structure SearchParams where
  page : Nat
  per_page : Nat
  order : String
  asc : String
  gender : Option String
  country : Option String
  listen : Option String
  share : Option String
deriving DecidableEq, Repr

/-- fetchUsersPage, request-building part (lines 119-131). -/
def fetchUsersPageParams (filters : Filters) (page : Nat) : SearchParams :=
  { page := page
    per_page := searchPerPage
    order := "last_seen"
    asc := "false"
    gender := if filters.gender != "" then some filters.gender else none
    country := if filters.country != "" then some filters.country else none
    listen := if filters.listen != "" then some filters.listen else none
    share := if filters.share != "" then some filters.share else none }

/-- fetchUsersPage, response part (lines 133-135): hasMore holds exactly
when the returned page is full. -/
def fetchUsersPageHasMore (users : List String) : Bool :=
  users.length == searchPerPage

-- ----------------------
-- Dropdown options (withDoNotConsider and option rendering)
-- ----------------------

/-- withDoNotConsider (lines 55-57, 754-756 and part_001 lines 51-54):
prepend the neutral choice; a null/undefined list acts as empty. -/
def withDoNotConsider (list : Option (List String)) : List String :=
  "Do not consider" :: list.getD []

/-- Value attribute given to a rendered option in the injectFilters
markup: the neutral choice gets the empty value. -/
def renderOptionValue (option : String) : String :=
  if option = "Do not consider" then "" else option

/-- A rendered dropdown: each option as (value, label). -/
def renderedOptions (opts : List String) : List (String × String) :=
  opts.map (fun o => (renderOptionValue o, o))

-- ----------------------
-- Sorting by last seen (sortCardsByLastSeen, lines 1096-1137)
-- ----------------------

-- A directory card enters the sort only through the timestamp that
-- extractSeenTimestampFromCard reads off it: a finite millisecond value,
-- or null when no Seen information parses.  Cards are therefore modelled
-- by that Option Int; the decoration with the original index mirrors the
-- map over children with idx in the source.

/-- The comparator passed to decorated.sort (lines 1112-1128), on pairs
of (original index, extracted timestamp). -/
def cardCmp (a b : Nat × Option Int) : Int :=
  match a.2, b.2 with
  | none, none => (a.1 : Int) - (b.1 : Int)
  | none, some _ => 1
  | some _, none => -1
  | some x, some y => if y ≠ x then y - x else (a.1 : Int) - (b.1 : Int)

/-- Boolean order relation derived from the comparator (sorted when the
comparator is nonpositive). -/
def cardLe (a b : Nat × Option Int) : Bool :=
  decide (cardCmp a b ≤ 0)

/-- Decoration step of sortCardsByLastSeen (lines 1103-1110): pair each
card with its original document position; the early return for lists of
length at most one keeps the input order. -/
def sortDecorated (cards : List (Option Int)) : List (Nat × Option Int) :=
  if cards.length ≤ 1 then cards.enum else cards.enum.mergeSort cardLe

/-- sortCardsByLastSeen (lines 1096-1137): reorder the cards by the
comparator; the DOM re-append keeps exactly the sorted node order. -/
def sortCardsByLastSeen (cards : List (Option Int)) : List (Option Int) :=
  if cards.length ≤ 1 then cards else (cards.enum.mergeSort cardLe).map Prod.snd

/-- The strict order the claim describes: timestamped before
timestampless, more recent before older, ties in original order. -/
def sortedBefore (a b : Nat × Option Int) : Prop :=
  match a.2, b.2 with
  | some x, some y => y < x ∨ (x = y ∧ a.1 < b.1)
  | some _, none => True
  | none, some _ => False
  | none, none => a.1 < b.1

-- ----------------------
-- URL round trip (part_000 and part_001)
-- ----------------------

/-- The four hb filter values handed to the URL builders. -/
structure HbState where
  hb_gender : String
  hb_country : String
  hb_listen : String
  hb_share : String
deriving DecidableEq, Repr

/-- The query parameters the URL helpers read and write: the four hb
keys plus order and asc.  none models an absent parameter. -/
structure QueryParams where
  hb_gender : Option String
  hb_country : Option String
  hb_listen : Option String
  hb_share : Option String
  order : Option String
  asc : Option String
deriving DecidableEq, Repr

/-- A query string with none of the six parameters present. -/
def emptyQuery : QueryParams :=
  { hb_gender := none, hb_country := none, hb_listen := none,
    hb_share := none, order := none, asc := none }

/-- part_000 lines 10-17: DEFAULT_ORDER. -/
def DEFAULT_ORDER : String := "last_seen_at"

/-- part_000 line 17: DEFAULT_DIR. -/
def DEFAULT_DIR : String := "desc"

/-- defaultDirFor (part_000 lines 53-56): look up the default direction
of a sort field in SORT_FIELDS, falling back to DEFAULT_DIR. -/
def defaultDirFor (order : String) : String :=
  if order = "last_seen_at" then "desc"
  else if order = "username" then "asc"
  else if order = "created_at" then "desc"
  else DEFAULT_DIR

/-- buildUrlWithParams (part_000 lines 77-113): set each hb key when its
value is truthy and delete it otherwise; set order when truthy; set
asc=true exactly for an ascending direction.  The untouched keys of the
base URL do not survive into the six parameters the function rewrites. -/
def buildUrlWithParams000 (hb : HbState) (order dir : String)
    (_base : QueryParams) : QueryParams :=
  { hb_gender := if hb.hb_gender != "" then some hb.hb_gender else none
    hb_country := if hb.hb_country != "" then some hb.hb_country else none
    hb_listen := if hb.hb_listen != "" then some hb.hb_listen else none
    hb_share := if hb.hb_share != "" then some hb.hb_share else none
    order := if order != "" then some order else none
    asc := if dir = "asc" then some "true" else none }

/-- Decoded directory parameters of part_000 readDirParams. -/
structure DirParams where
  hb : HbState
  order : String
  dir : String
deriving DecidableEq, Repr

/-- readDirParams (part_000 lines 58-71): each hb key decodes to its
value or the empty string, order likewise, and the direction is asc
exactly when the asc parameter equals true. -/
def readDirParams (q : QueryParams) : DirParams :=
  { hb := { hb_gender := q.hb_gender.getD ""
            hb_country := q.hb_country.getD ""
            hb_listen := q.hb_listen.getD ""
            hb_share := q.hb_share.getD "" }
    order := q.order.getD ""
    dir := if q.asc.getD "" = "true" then "asc" else "desc" }

/-- syncFormFromUrl (part_000 lines 170-171): the effective order
defaults to DEFAULT_ORDER when the order parameter is missing, and the
direction falls back to the default for that order. -/
def syncFormEffective (d : DirParams) : DirParams :=
  { hb := d.hb
    order := if d.order = "" then DEFAULT_ORDER else d.order
    dir := if d.order = "" then defaultDirFor DEFAULT_ORDER else d.dir }

/-- The effective state a part_000 filter-plus-sort selection denotes: hb
values kept verbatim, an empty order replaced by the documented default
together with its default direction, any other direction normalised to
asc or desc. -/
def effectiveState000 (hb : HbState) (order dir : String) : DirParams :=
  { hb := hb
    order := if order = "" then DEFAULT_ORDER else order
    dir := if order = "" then DEFAULT_DIR
           else if dir = "asc" then "asc" else "desc" }

/-- Sort selection of part_001: a field and a direction. -/
structure SortState where
  order : String
  direction : String
deriving DecidableEq, Repr

/-- buildUrlWithParams (part_001 lines 101-127): trim and set each hb
key when nonempty, always set order (defaulting an empty one to
last_seen), and set asc=1 exactly for an ascending direction. -/
def buildUrlWithParams001 (hb : HbState) (sort : SortState)
    (_base : QueryParams) : QueryParams :=
  { hb_gender := if jsTrim hb.hb_gender != "" then some (jsTrim hb.hb_gender) else none
    hb_country := if jsTrim hb.hb_country != "" then some (jsTrim hb.hb_country) else none
    hb_listen := if jsTrim hb.hb_listen != "" then some (jsTrim hb.hb_listen) else none
    hb_share := if jsTrim hb.hb_share != "" then some (jsTrim hb.hb_share) else none
    order := some (if jsTrim sort.order = "" then "last_seen" else jsTrim sort.order)
    asc := if sort.direction = "asc" then some "1" else none }

/-- readHbParams (part_001 lines 56-66): a key is reported only when its
parameter is present and truthy. -/
def readHbParams (q : QueryParams) : QueryParams :=
  { emptyQuery with
    hb_gender := match q.hb_gender with
      | some v => if v != "" then some v else none
      | none => none
    hb_country := match q.hb_country with
      | some v => if v != "" then some v else none
      | none => none
    hb_listen := match q.hb_listen with
      | some v => if v != "" then some v else none
      | none => none
    hb_share := match q.hb_share with
      | some v => if v != "" then some v else none
      | none => none }

/-- The hb values a consumer of readHbParams sees: every use site reads
out[k] with an or-empty fallback. -/
def readHbEffective (q : QueryParams) : HbState :=
  { hb_gender := (readHbParams q).hb_gender.getD ""
    hb_country := (readHbParams q).hb_country.getD ""
    hb_listen := (readHbParams q).hb_listen.getD ""
    hb_share := (readHbParams q).hb_share.getD "" }

/-- readSortParams (part_001 lines 73-81): order defaults to last_seen
when missing or blank; the direction is asc exactly when an asc
parameter is present. -/
def readSortParams (q : QueryParams) : SortState :=
  { order := if jsTrim (q.order.getD "") = "" then "last_seen" else jsTrim (q.order.getD "")
    direction := if q.asc.isSome then "asc" else "desc" }

/-- The effective state a part_001 filter-plus-sort selection denotes:
hb values trimmed, a blank order replaced by last_seen, the direction
normalised to asc or desc. -/
def effectiveState001 (hb : HbState) (sort : SortState) : HbState × SortState :=
  ({ hb_gender := jsTrim hb.hb_gender
     hb_country := jsTrim hb.hb_country
     hb_listen := jsTrim hb.hb_listen
     hb_share := jsTrim hb.hb_share },
   { order := if jsTrim sort.order = "" then "last_seen" else jsTrim sort.order
     direction := if sort.direction = "asc" then "asc" else "desc" })

-- ----------------------
-- Exhaustive pagination (ensureAllUsersLoaded, lines 802-852)
-- ----------------------

-- The loop is event driven: the only suspension points are the sleep
-- calls, so simulated time advances by pollMs on every sleep and is
-- frozen otherwise.  The host page is an environment giving, for every
-- time, the list child count and the state of the load-more button.

/-- Poll interval of the loop (line 805). -/
def pollMs : Nat := 200

/-- Settle window of the loop (line 806). -/
def settleMs : Nat := 800

/-- Per click growth timeout of the loop (line 804). -/
def perClickTimeoutMs : Nat := 10000

/-- An environment for ensureAllUsersLoaded: at each millisecond time it
says how many children the directory section has and whether the
load-more button exists and is enabled. -/
structure DirEnv where
  count : Nat → Nat
  present : Nat → Bool
  enabled : Nat → Bool

/-- Control position inside ensureAllUsersLoaded: at the top of the
outer while loop, or inside the per-click growth poll (with the child
count and time recorded at the click). -/
inductive LoadPhase
  | outerCheck
  | innerPoll (startCount : Nat) (startTime : Nat)
deriving DecidableEq, Repr

/-- The mutable state of ensureAllUsersLoaded plus the simulated clock;
finished marks that the routine has returned. -/
structure LoadState where
  phase : LoadPhase
  loops : Nat
  lastCount : Int
  lastGrowthAt : Nat
  time : Nat
  finished : Bool
deriving DecidableEq, Repr

/-- One iteration of ensureAllUsersLoaded (lines 812-851): either one
pass of the outer while loop up to its await, or one pass of the inner
growth poll. -/
def loadStep (env : DirEnv) (max : Nat) (s : LoadState) : LoadState :=
  if s.finished then s
  else match s.phase with
  | .outerCheck =>
    if max ≤ s.loops then { s with finished := true }
    else
      let count := env.count s.time
      let lastCount := if (count : Int) ≠ s.lastCount then (count : Int) else s.lastCount
      let lastGrowthAt := if (count : Int) ≠ s.lastCount then s.time else s.lastGrowthAt
      if !(env.present s.time && env.enabled s.time) then
        if settleMs ≤ s.time - lastGrowthAt then
          { s with finished := true, lastCount := lastCount, lastGrowthAt := lastGrowthAt }
        else
          { s with time := s.time + pollMs, lastCount := lastCount, lastGrowthAt := lastGrowthAt }
      else
        { s with phase := .innerPoll count s.time, loops := s.loops + 1,
                 lastCount := lastCount, lastGrowthAt := lastGrowthAt }
  | .innerPoll startCount startTime =>
    if s.time - startTime < perClickTimeoutMs then
      let t := s.time + pollMs
      let countNow := env.count t
      if startCount < countNow then
        { s with phase := .outerCheck, time := t, lastGrowthAt := t,
                 lastCount := (countNow : Int) }
      else if !(env.present t) then
        { s with phase := .outerCheck, time := t }
      else
        { s with time := t }
    else
      { s with phase := .outerCheck }

/-- Iterate loadStep for a given number of simulation steps. -/
def runLoad (env : DirEnv) (max : Nat) : Nat → LoadState → LoadState
  | 0, s => s
  | n + 1, s => runLoad env max n (loadStep env max s)

/-- Entry state of ensureAllUsersLoaded: outer loop, zero clicks,
lastCount = -1, growth clock at entry time zero. -/
def initLoadState : LoadState :=
  { phase := .outerCheck, loops := 0, lastCount := -1,
    lastGrowthAt := 0, time := 0, finished := false }

/-- The maxLoops or 200 default of line 803. -/
def ensureMaxLoops (maxLoops : Nat) : Nat :=
  if maxLoops = 0 then 200 else maxLoops

/-- ensureAllUsersLoaded run for a given number of simulation steps. -/
def ensureAllUsersLoadedRun (env : DirEnv) (maxLoops fuel : Nat) : LoadState :=
  runLoad env (ensureMaxLoops maxLoops) fuel initLoadState

/-- Termination of ensureAllUsersLoaded in an environment: some number
of simulation steps reaches the return. -/
def ensureTerminatesOn (env : DirEnv) (maxLoops : Nat) : Prop :=
  ∃ fuel, (ensureAllUsersLoadedRun env maxLoops fuel).finished = true

/-- Environment in which the load-more button never exists and the list
grows by one child on every poll. -/
def growingEnv : DirEnv :=
  { count := fun t => t / pollMs, present := fun _ => false, enabled := fun _ => false }

/-- Environment in which the load-more button is always enabled and the
list never grows at all. -/
def stuckEnv : DirEnv :=
  { count := fun _ => 0, present := fun _ => true, enabled := fun _ => true }

/-- Environment matching the documented simulation: the list grows
promptly after each of the first three clicks and the button disappears
afterwards. -/
def settleEnv : DirEnv :=
  { count := fun t => min (t / pollMs) 3,
    present := fun t => decide (t < 500),
    enabled := fun _ => true }

-- ----------------------
-- Match-set fetch and hide-in-place filtering (lines 932-1031)
-- ----------------------

/-- Page size of fetchMatchingUsernames (line 936). -/
def fmuPerPage : Nat := 100

/-- A response environment for the paged /user-search.json requests: for
every page number either a failure or the returned username list. -/
def FetchResponses : Type := Nat → Except Unit (List String)

/-- Loop body of fetchMatchingUsernames (lines 942-971), recursing on
the remaining safety budget (safety greater than 300 breaks): a failed
request breaks with the set built so far, a short page ends the paging,
usernames are stored lower cased and falsy usernames are skipped. -/
def fetchMatchingGo (resp : FetchResponses) : Nat → Nat → List String → List String
  | 0, _, acc => acc
  | fuel + 1, page, acc =>
    match resp page with
    | .error _ => acc
    | .ok users =>
      let acc2 := acc ++ (users.filter (fun u => u != "")).map jsToLower
      if users.length < fmuPerPage then acc2
      else fetchMatchingGo resp fuel (page + 1) acc2

/-- fetchMatchingUsernames (lines 932-974): null without an active
filter, otherwise the accumulated lower-cased username set (modelled as
a list whose membership is the set membership). -/
def fetchMatchingUsernames (filters : Filters) (resp : FetchResponses) :
    Option (List String) :=
  if !filters.hasAnyFilter then none
  else some (fetchMatchingGo resp 300 1 [])

/-- The submit handler of the hide-in-place variant (lines 1355-1361):
the stored match set is the fetched one, or a fresh empty set when the
fetch produced null. -/
def submitActiveMatchSet (filters : Filters) (resp : FetchResponses) :
    Option (List String) :=
  some ((fetchMatchingUsernames filters resp).getD [])

/-- Membership test of applyFiltersBySet (lines 1006-1007): a null set
allows nothing, otherwise the lower-cased username must be in the set. -/
def cardAllowed (allowedSetOrNull : Option (List String)) (username : String) : Bool :=
  match allowedSetOrNull with
  | none => false
  | some s => s.contains (jsToLower username)

/-- Outcome of applyFiltersBySet: per card visibility, the visible
count, and whether the empty-state message ends up shown. -/
structure ApplyResult where
  visible : List Bool
  visibleCount : Nat
  emptyShown : Bool
deriving DecidableEq, Repr

/-- applyFiltersBySet (lines 980-1031): each card is shown when no
filter is active; with an active filter a card without an extractable
username is hidden and the rest are shown exactly when allowed; the
empty-state message is shown exactly when a filter is active and
nothing stayed visible. -/
def applyFiltersBySet (form : FormValues) (allowedSetOrNull : Option (List String))
    (cards : List (Option String)) : ApplyResult :=
  let hasAnyFilter := (buildFiltersFromForm form).hasAnyFilter
  let visible := cards.map (fun card =>
    if !hasAnyFilter then true
    else match card with
      | none => false
      | some username => cardAllowed allowedSetOrNull username)
  { visible := visible
    visibleCount := visible.count true
    emptyShown := hasAnyFilter && visible.count true == 0 }

-- ----------------------
-- Search-mode first page rendering (renderFirstPage, lines 434-475)
-- ----------------------

/-- The slice of search-mode state renderFirstPage touches. -/
structure SearchUiState where
  searchActive : Bool
  searchHasMore : Bool
  searchLoading : Bool
  searchPage : Nat
  emptyShown : Bool
  originalDisplay : String
  resultsDisplay : String
  resultsCards : List String
deriving DecidableEq, Repr

/-- renderFirstPage (lines 434-475) after its guards, as a function of
the fetch outcome: switch the sections into search mode, reset the page,
then either render the returned users (showing the empty-state exactly
for an empty page, with has-more from the page being full) or, on a
failed fetch, clear has-more and show the empty-state. -/
def renderFirstPage (fetchResult : Except Unit (List String))
    (s : SearchUiState) : SearchUiState :=
  let s1 := { s with searchActive := true, searchLoading := true,
                     emptyShown := false, originalDisplay := "none",
                     resultsDisplay := "", resultsCards := [], searchPage := 1 }
  match fetchResult with
  | .ok users =>
    { s1 with searchHasMore := fetchUsersPageHasMore users,
              resultsCards := users,
              emptyShown := users.length == 0,
              searchLoading := false }
  | .error _ =>
    { s1 with searchHasMore := false,
              emptyShown := true,
              searchLoading := false }

-- ----------------------
-- Template caching (ensureSections lines 149-158, renderFirstPage 445-448)
-- ----------------------

/-- What the template heuristics of the spec inspect on a candidate list
item: its class attribute and whether an avatar image and a username
element are inside. -/
structure DomCard where
  className : String
  hasAvatarImg : Bool
  hasUsernameEl : Bool
deriving DecidableEq, Repr

/-- Template caching step of ensureSections (lines 154-157): whenever
the section has a child, clone the first one as the template, with no
further inspection. -/
def ensureSectionsTemplate (children : List DomCard) : Option DomCard :=
  children.head?

/-- Template refresh of renderFirstPage (lines 445-448): cache the first
child only when no template is cached yet. -/
def renderFirstPageTemplate (templateNode : Option DomCard)
    (children : List DomCard) : Option DomCard :=
  match templateNode with
  | some t => some t
  | none => children.head?

/-- Markers the specification calls skeleton, placeholder or loading
markers in a class attribute. -/
def skeletonMarkers : List String := ["skeleton", "placeholder", "loading"]

/-- Modelled from the spec (section 4.1 template acquisition): the
acceptance conditions a clone template candidate must satisfy; this
policy appears nowhere in the sources, so it is stated from the words of
the spec for comparison with ensureSectionsTemplate. -/
def specTemplateAccepted (c : DomCard) : Bool :=
  c.hasAvatarImg && c.hasUsernameEl &&
    !(skeletonMarkers.any (fun m => (c.className.splitOn m).length != 1))

/-- A loading placeholder list item: skeleton class, no avatar image, no
username element. -/
def skeletonCard : DomCard :=
  { className := "user-skeleton loading-placeholder",
    hasAvatarImg := false, hasUsernameEl := false }

-- ----------------------
-- Section visibility (ensureSections 161-170, renderFirstPage 450-453,
-- exitSearchMode 506-529)
-- ----------------------

/-- Display values of the two list containers plus the saved original
display that exitSearchMode restores. -/
structure VisState where
  originalDisplay : String
  resultsDisplay : String
  savedDisplay : String
deriving DecidableEq, Repr

/-- The operations of the search-mode state machine that change which
list is displayed.  renderFirstPage carries whether its guards let it
proceed to the display switch. -/
inductive VisOp
  | ensureSectionsAgain
  | renderFirstPageOp (proceeds : Bool)
  | exitSearchModeOp
deriving DecidableEq, Repr

/-- ensureSections on first entry (lines 150-170): the original section
keeps its display, which is also saved, and the fresh results container
is created with display none. -/
def initVisState (saved : String) : VisState :=
  { originalDisplay := saved, resultsDisplay := "none", savedDisplay := saved }

/-- Effect of one operation on the displays: a repeated ensureSections
changes nothing, renderFirstPage (when it proceeds) hides the original
and shows the results in the same step, and exitSearchMode restores the
saved display and hides the results in the same step. -/
def applyVisOp (s : VisState) : VisOp → VisState
  | .ensureSectionsAgain => s
  | .renderFirstPageOp true =>
    { s with originalDisplay := "none", resultsDisplay := "" }
  | .renderFirstPageOp false => s
  | .exitSearchModeOp =>
    { s with originalDisplay := s.savedDisplay, resultsDisplay := "none" }

/-- A display value renders the element visible unless it is none. -/
def displayVisible (d : String) : Bool :=
  d != "none"

/-- Exactly one of the two sections is visible. -/
def exactlyOneVisible (s : VisState) : Prop :=
  (displayVisible s.originalDisplay = true ∧ displayVisible s.resultsDisplay = false) ∨
  (displayVisible s.originalDisplay = false ∧ displayVisible s.resultsDisplay = true)

-- ----------------------
-- Concrete scenarios used in individual theorems
-- ----------------------

/-- The state of the growing-environment run after k outer polls. -/
def growingState (k : Nat) : LoadState :=
  { phase := .outerCheck, loops := 0, lastCount := (k : Int) - 1,
    lastGrowthAt := pollMs * k - pollMs, time := pollMs * k, finished := false }

/-- The state of the stuck-environment run inside the growth poll of
click j+1, after k polls of that click. -/
def stuckInner (j k : Nat) : LoadState :=
  { phase := .innerPoll 0 (10000 * j), loops := j + 1, lastCount := 0,
    lastGrowthAt := 0, time := 10000 * j + 200 * k, finished := false }

/-- The state of the stuck-environment run back at the outer loop after
j clicks. -/
def stuckOuter (j : Nat) : LoadState :=
  { phase := .outerCheck, loops := j, lastCount := 0,
    lastGrowthAt := 0, time := 10000 * j, finished := false }

/-- View of a page response with all usernames lower cased, used to say
two response environments agree up to letter case. -/
def lowerResp (r : Except Unit (List String)) : Except Unit (List String) :=
  match r with
  | .error e => .error e
  | .ok users => .ok (users.map jsToLower)

/-- A response environment whose first page is full and whose second
request fails. -/
def laterFailResp : FetchResponses :=
  fun page => if page = 1
    then .ok ((List.range fmuPerPage).map (fun i => "u" ++ toString i))
    else .error ()

/-- A response environment in which every request fails. -/
def failAllResp : FetchResponses :=
  fun _ => .error ()

/-- A submitted form with one active filter field. -/
def oneFilterForm : FormValues :=
  { gender := some "Woman", country := none, listen := none, share := none }

/-- Response environment returning one mixed-case username. -/
def mixedCaseRespA : FetchResponses :=
  fun page => if page = 1 then .ok ["Alice"] else .error ()

/-- Response environment returning the same username in another case. -/
def mixedCaseRespB : FetchResponses :=
  fun page => if page = 1 then .ok ["aLICE"] else .error ()

-- ----------------------
-- Helper lemmas
-- ----------------------

theorem cardCmp_le_trans (a b c : Nat × Option Int)
    (h1 : cardCmp a b ≤ 0) (h2 : cardCmp b c ≤ 0) : cardCmp a c ≤ 0 := by
  obtain ⟨i, x⟩ := a
  obtain ⟨j, y⟩ := b
  obtain ⟨k, z⟩ := c
  cases x <;> cases y <;> cases z <;>
    simp only [cardCmp] at h1 h2 ⊢ <;>
    (try split_ifs at h1 h2 ⊢) <;> omega

theorem cardCmp_total (a b : Nat × Option Int) :
    cardCmp a b ≤ 0 ∨ cardCmp b a ≤ 0 := by
  obtain ⟨i, x⟩ := a
  obtain ⟨j, y⟩ := b
  cases x <;> cases y <;>
    simp only [cardCmp] <;>
    (try split_ifs) <;> omega

theorem sortedBefore_of_cmp_le (a b : Nat × Option Int) (hne : a.1 ≠ b.1)
    (h : cardCmp a b ≤ 0) : sortedBefore a b := by
  obtain ⟨i, x⟩ := a
  obtain ⟨j, y⟩ := b
  simp only at hne
  cases x <;> cases y <;>
    simp only [cardCmp, sortedBefore] at h ⊢ <;>
    (try split_ifs at h ⊢) <;> omega

theorem loadStep_loops_le (env : DirEnv) (max : Nat) (s : LoadState)
    (h : s.loops ≤ max) : (loadStep env max s).loops ≤ max := by
  unfold loadStep
  split
  · exact h
  · split
    · split
      · simpa using h
      · dsimp only
        split_ifs <;> simp <;> omega
    · dsimp only
      split_ifs <;> simpa using h

theorem runLoad_loops_le (env : DirEnv) (max : Nat) (fuel : Nat) :
    ∀ s : LoadState, s.loops ≤ max → (runLoad env max fuel s).loops ≤ max := by
  induction fuel with
  | zero => intro s h; exact h
  | succ n ih => intro s h; exact ih _ (loadStep_loops_le env max s h)

theorem loadStep_growingEnv (k : Nat) :
    loadStep growingEnv 200 (growingState k) = growingState (k + 1) := by
  have hcount : 200 * k / 200 = k := by omega
  have hfalse : ¬((k : Int) = (k : Int) - 1) := by omega
  simp [loadStep, growingState, growingEnv, pollMs, settleMs, hcount, hfalse]
  omega

theorem runLoad_growingEnv (n k : Nat) :
    runLoad growingEnv 200 n (growingState k) = growingState (k + n) := by
  induction n generalizing k with
  | zero => rfl
  | succ m ih =>
    have hstep : runLoad growingEnv 200 (m + 1) (growingState k) =
        runLoad growingEnv 200 m (loadStep growingEnv 200 (growingState k)) := rfl
    rw [hstep, loadStep_growingEnv, ih]
    congr 1
    omega

theorem growingEnv_never_finishes (fuel : Nat) :
    (ensureAllUsersLoadedRun growingEnv 200 fuel).finished = false := by
  have hinit : initLoadState = growingState 0 := by decide
  have hmax : ensureMaxLoops 200 = 200 := rfl
  unfold ensureAllUsersLoadedRun
  rw [hmax, hinit, runLoad_growingEnv]
  rfl

theorem runLoad_add (env : DirEnv) (max : Nat) (a b : Nat) (s : LoadState) :
    runLoad env max (a + b) s = runLoad env max b (runLoad env max a s) := by
  induction a generalizing s with
  | zero => rw [Nat.zero_add]; rfl
  | succ m ih =>
    have h1 : m + 1 + b = (m + b) + 1 := by omega
    rw [h1]
    show runLoad env max (m + b) (loadStep env max s) = _
    rw [ih]
    rfl

theorem loadStep_stuck_init :
    loadStep stuckEnv 200 initLoadState = stuckInner 0 0 := by decide

theorem loadStep_stuck_inner (j k : Nat) (hk : k < 50) :
    loadStep stuckEnv 200 (stuckInner j k) = stuckInner j (k + 1) := by
  have h1 : 10000 * j + 200 * k - 10000 * j = 200 * k := by omega
  have h2 : 200 * k < 10000 := by omega
  simp [loadStep, stuckInner, stuckEnv, pollMs, perClickTimeoutMs, h1, h2]
  omega

theorem loadStep_stuck_inner_exit (j : Nat) :
    loadStep stuckEnv 200 (stuckInner j 50) = stuckOuter (j + 1) := by
  have h1 : 10000 * j + 200 * 50 - 10000 * j = 10000 := by omega
  simp [loadStep, stuckInner, stuckOuter, stuckEnv, pollMs, perClickTimeoutMs, h1]
  omega

theorem loadStep_stuck_outer (j : Nat) (hj : j < 200) :
    loadStep stuckEnv 200 (stuckOuter j) = stuckInner j 0 := by
  have h1 : ¬(200 ≤ j) := by omega
  simp [loadStep, stuckInner, stuckOuter, stuckEnv, pollMs, settleMs, h1]

theorem runLoad_stuck_inner (j : Nat) :
    ∀ n k, k + n ≤ 50 →
      runLoad stuckEnv 200 n (stuckInner j k) = stuckInner j (k + n) := by
  intro n
  induction n with
  | zero => intro k _; rfl
  | succ m ih =>
    intro k hk
    show runLoad stuckEnv 200 m (loadStep stuckEnv 200 (stuckInner j k)) = _
    rw [loadStep_stuck_inner j k (by omega), ih (k + 1) (by omega)]
    congr 1
    omega

theorem runLoad_stuck_cycle (j : Nat) (hj : j < 200) :
    runLoad stuckEnv 200 52 (stuckOuter j) = stuckOuter (j + 1) := by
  show runLoad stuckEnv 200 51 (loadStep stuckEnv 200 (stuckOuter j)) = _
  rw [loadStep_stuck_outer j hj]
  have h50 : runLoad stuckEnv 200 (50 + 1) (stuckInner j 0) =
      runLoad stuckEnv 200 1 (runLoad stuckEnv 200 50 (stuckInner j 0)) :=
    runLoad_add stuckEnv 200 50 1 _
  have h51 : (51 : Nat) = 50 + 1 := rfl
  rw [h51, h50, runLoad_stuck_inner j 50 0 (by omega)]
  show loadStep stuckEnv 200 (stuckInner j (0 + 50)) = _
  have h05 : (0 + 50 : Nat) = 50 := rfl
  rw [h05, loadStep_stuck_inner_exit j]

theorem runLoad_stuck_many (d : Nat) (hd : 1 + d ≤ 200) :
    runLoad stuckEnv 200 (52 * d) (stuckOuter 1) = stuckOuter (1 + d) := by
  induction d with
  | zero => rfl
  | succ m ih =>
    have h1 : 52 * (m + 1) = 52 * m + 52 := by omega
    rw [h1, runLoad_add, ih (by omega), runLoad_stuck_cycle (1 + m) (by omega)]
    congr 1

theorem stuckEnv_run_result :
    ensureAllUsersLoadedRun stuckEnv 200 10401 = { stuckOuter 200 with finished := true } := by
  have hmax : ensureMaxLoops 200 = 200 := rfl
  unfold ensureAllUsersLoadedRun
  rw [hmax]
  have hsplit : (10401 : Nat) = 52 + (10348 + 1) := by norm_num
  rw [hsplit, runLoad_add]
  have hstart : runLoad stuckEnv 200 52 initLoadState = stuckOuter 1 := by
    show runLoad stuckEnv 200 51 (loadStep stuckEnv 200 initLoadState) = _
    rw [loadStep_stuck_init]
    have h51 : (51 : Nat) = 50 + 1 := rfl
    rw [h51, runLoad_add, runLoad_stuck_inner 0 50 0 (by omega)]
    show loadStep stuckEnv 200 (stuckInner 0 (0 + 50)) = _
    have h05 : (0 + 50 : Nat) = 50 := rfl
    rw [h05, loadStep_stuck_inner_exit 0]
  rw [hstart, runLoad_add]
  have h10348 : (10348 : Nat) = 52 * 199 := by norm_num
  rw [h10348, runLoad_stuck_many 199 (by omega)]
  have h200 : (1 + 199 : Nat) = 200 := rfl
  rw [h200]
  decide

theorem truthyOptRead (v : String) :
    (if v != "" then some v else none).getD "" = v := by
  by_cases h : v = "" <;> simp [h]

theorem hbReadChain (v : String) :
    (match (if jsTrim v != "" then some (jsTrim v) else none : Option String) with
      | some w => if w != "" then some w else none
      | none => none).getD "" = jsTrim v := by
  by_cases h : jsTrim v = "" <;> simp [h]

theorem jsTrim_last_seen : jsTrim "last_seen" = "last_seen" := by decide

theorem jsToLower_empty : jsToLower "" = "" := rfl

theorem jsToLower_eq_empty (u : String) : jsToLower u = "" ↔ u = "" := by
  constructor
  · intro h
    have hnil : u.data = [] :=
      List.map_eq_nil_iff.mp (congrArg String.data h)
    exact String.ext (by rw [hnil])
  · intro h
    rw [h]
    exact jsToLower_empty

theorem filter_map_lower (users : List String) :
    (users.filter (fun u => u != "")).map jsToLower =
    (users.map jsToLower).filter (fun u => u != "") := by
  induction users with
  | nil => rfl
  | cons a t ih =>
    by_cases ha : a = ""
    · subst ha
      simp [jsToLower_empty, ih]
    · have ha2 : ¬(jsToLower a = "") := fun hc => ha ((jsToLower_eq_empty a).mp hc)
      simp [List.filter_cons, ha, ha2, ih]

theorem fetchMatchingGo_congr (resp1 resp2 : FetchResponses)
    (h : ∀ p, lowerResp (resp1 p) = lowerResp (resp2 p)) :
    ∀ fuel page acc,
      fetchMatchingGo resp1 fuel page acc = fetchMatchingGo resp2 fuel page acc := by
  intro fuel
  induction fuel with
  | zero => intro page acc; rfl
  | succ m ih =>
    intro page acc
    have hp := h page
    cases h1 : resp1 page with
    | error e =>
      cases h2 : resp2 page with
      | error e2 => simp [fetchMatchingGo, h1, h2]
      | ok users2 =>
        rw [h1, h2] at hp
        simp [lowerResp] at hp
    | ok users1 =>
      cases h2 : resp2 page with
      | error e2 =>
        rw [h1, h2] at hp
        simp [lowerResp] at hp
      | ok users2 =>
        rw [h1, h2] at hp
        simp only [lowerResp, Except.ok.injEq] at hp
        have hlen : users1.length = users2.length := by
          have hl := congrArg List.length hp
          simpa using hl
        have hmapped : (users1.filter (fun u => u != "")).map jsToLower =
            (users2.filter (fun u => u != "")).map jsToLower := by
          rw [filter_map_lower, filter_map_lower, hp]
        simp only [fetchMatchingGo, h1, h2]
        rw [hmapped, hlen]
        by_cases hfull : users2.length < fmuPerPage
        · simp [hfull]
        · simp only [hfull, if_false]
          exact ih (page + 1) _

theorem fetchMatchingGo_error (resp : FetchResponses) (fuel page : Nat)
    (acc : List String) (h : resp page = .error ()) :
    fetchMatchingGo resp (fuel + 1) page acc = acc := by
  simp [fetchMatchingGo, h]

theorem applyFilters_empty_set (form : FormValues) (cards : List (Option String))
    (hany : (buildFiltersFromForm form).hasAnyFilter = true) :
    (applyFiltersBySet form (some []) cards).visibleCount = 0 ∧
    (applyFiltersBySet form (some []) cards).emptyShown = true := by
  have hcount : (cards.map (fun card : Option String =>
      match card with
      | none => false
      | some username => cardAllowed (some []) username)).count true = 0 := by
    rw [List.count_eq_zero]
    intro hmem
    rw [List.mem_map] at hmem
    obtain ⟨card, _, hcard⟩ := hmem
    cases card <;> simp [cardAllowed] at hcard
  constructor
  · simpa [applyFiltersBySet, hany] using hcount
  · simp [applyFiltersBySet, hany, hcount]

-- ----------------------
-- Claim theorems
-- ----------------------

/-- Claim C1: for every list of directory cards,
sortCardsByLastSeen reorders the list so that every card with a
parseable last-seen timestamp precedes every card lacking one; among
timestamped cards a more recent timestamp precedes an older one; and
cards that compare equal keep their original document order.  The output
is a permutation of the input, and the decorated output is pairwise in
the strict document-and-time order sortedBefore, of which the claimed
three clauses are exactly the cases. -/
theorem claim_c1_sortCardsByLastSeen (cards : List (Option Int)) :
    (sortCardsByLastSeen cards).Perm cards ∧
    (sortDecorated cards).Pairwise sortedBefore ∧
    sortCardsByLastSeen cards = (sortDecorated cards).map Prod.snd := by
  by_cases hlen : cards.length ≤ 1
  · refine ⟨?_, ?_, ?_⟩
    · simp [sortCardsByLastSeen, hlen]
    · cases cards with
      | nil => simp [sortDecorated]
      | cons a t =>
        cases t with
        | nil => simp [sortDecorated, List.enum]
        | cons b u => simp at hlen
    · simp [sortCardsByLastSeen, sortDecorated, hlen, List.enum_map_snd]
  · have hperm : (cards.enum.mergeSort cardLe).Perm cards.enum :=
      List.mergeSort_perm _ _
    have hsorted : (cards.enum.mergeSort cardLe).Pairwise (fun a b => cardLe a b = true) :=
      List.sorted_mergeSort
        (fun a b c h1 h2 => by
          simp only [cardLe, decide_eq_true_eq] at h1 h2 ⊢
          exact cardCmp_le_trans a b c h1 h2)
        (fun a b => by
          simp only [cardLe, Bool.or_eq_true, decide_eq_true_eq]
          exact cardCmp_total a b)
        cards.enum
    have hnodup : ((cards.enum.mergeSort cardLe).map Prod.fst).Nodup := by
      have h1 : (cards.enum.map Prod.fst).Nodup := by
        rw [List.enum_map_fst]
        exact List.nodup_range _
      exact ((hperm.map Prod.fst).symm).nodup h1
    have hpairne : (cards.enum.mergeSort cardLe).Pairwise (fun a b => a.1 ≠ b.1) :=
      List.pairwise_map.mp hnodup
    have hpair : (cards.enum.mergeSort cardLe).Pairwise sortedBefore := by
      refine (hsorted.and hpairne).imp ?_
      intro a b hab
      exact sortedBefore_of_cmp_le a b hab.2
        (by simpa [cardLe, decide_eq_true_eq] using hab.1)
    refine ⟨?_, ?_, ?_⟩
    · have hm := hperm.map Prod.snd
      rw [List.enum_map_snd] at hm
      simpa [sortCardsByLastSeen, hlen] using hm
    · simpa [sortDecorated, hlen] using hpair
    · simp [sortCardsByLastSeen, sortDecorated, hlen]

/-- Claim C2: for every form, buildFiltersFromForm returns
hasAnyFilter true exactly when at least one of the four fields is
nonempty after trimming, and returns each field trimmed. -/
theorem claim_c2_buildFiltersFromForm (form : FormValues) :
    ((buildFiltersFromForm form).hasAnyFilter = true ↔
      (jsTrim (form.gender.getD "") ≠ "" ∨ jsTrim (form.country.getD "") ≠ "" ∨
       jsTrim (form.listen.getD "") ≠ "" ∨ jsTrim (form.share.getD "") ≠ "")) ∧
    (buildFiltersFromForm form).gender = jsTrim (form.gender.getD "") ∧
    (buildFiltersFromForm form).country = jsTrim (form.country.getD "") ∧
    (buildFiltersFromForm form).listen = jsTrim (form.listen.getD "") ∧
    (buildFiltersFromForm form).share = jsTrim (form.share.getD "") := by
  refine ⟨?_, rfl, rfl, rfl, rfl⟩
  simp [buildFiltersFromForm]
  tauto

/-- Claim C8: withDoNotConsider prepends the Do-not-consider choice to
any (possibly null) option list keeping the original order, the rendered
dropdown gives that first option the empty value, and an empty field
value puts no constraint parameter into the search request. -/
theorem claim_c8_withDoNotConsider :
    (∀ list : Option (List String),
      (withDoNotConsider list).head? = some "Do not consider" ∧
      (withDoNotConsider list).tail = list.getD [] ∧
      (renderedOptions (withDoNotConsider list)).head? = some ("", "Do not consider")) ∧
    (∀ (c l s : Option String) (page : Nat),
      (fetchUsersPageParams (buildFiltersFromForm
        { gender := some "", country := c, listen := l, share := s }) page).gender = none) ∧
    (∀ (g l s : Option String) (page : Nat),
      (fetchUsersPageParams (buildFiltersFromForm
        { gender := g, country := some "", listen := l, share := s }) page).country = none) ∧
    (∀ (g c s : Option String) (page : Nat),
      (fetchUsersPageParams (buildFiltersFromForm
        { gender := g, country := c, listen := some "", share := s }) page).listen = none) ∧
    (∀ (g c l : Option String) (page : Nat),
      (fetchUsersPageParams (buildFiltersFromForm
        { gender := g, country := c, listen := l, share := some "" }) page).share = none) := by
  refine ⟨?_, ?_, ?_, ?_, ?_⟩
  · intro list
    refine ⟨rfl, rfl, ?_⟩
    simp [withDoNotConsider, renderedOptions, renderOptionValue]
  · intro c l s page; rfl
  · intro g l s page; rfl
  · intro g c s page; rfl
  · intro g c l page; rfl

/-- Claim C3: encoding any filter-plus-sort state into the page URL with
buildUrlWithParams and decoding it back with readDirParams (and the
syncFormFromUrl defaulting) in part_000, or with readHbParams and
readSortParams in part_001, yields the effective state of the input,
independently of the base URL; and every missing parameter decodes to
its documented default: order last-seen, direction desc, hb filters
empty. -/
theorem claim_c3_url_roundtrip :
    (∀ (hb : HbState) (order dir : String) (base : QueryParams),
      syncFormEffective (readDirParams (buildUrlWithParams000 hb order dir base)) =
        effectiveState000 hb order dir) ∧
    (syncFormEffective (readDirParams emptyQuery) =
      { hb := { hb_gender := "", hb_country := "", hb_listen := "", hb_share := "" },
        order := DEFAULT_ORDER, dir := DEFAULT_DIR }) ∧
    (∀ (hb : HbState) (sort : SortState) (base : QueryParams),
      readHbEffective (buildUrlWithParams001 hb sort base) = (effectiveState001 hb sort).1 ∧
      readSortParams (buildUrlWithParams001 hb sort base) = (effectiveState001 hb sort).2) ∧
    (readHbEffective emptyQuery =
      { hb_gender := "", hb_country := "", hb_listen := "", hb_share := "" }) ∧
    (readSortParams emptyQuery = { order := "last_seen", direction := "desc" }) := by
  refine ⟨?_, by decide, ?_, by decide, by decide⟩
  · intro hb order dir base
    obtain ⟨g, c, l, s⟩ := hb
    simp only [buildUrlWithParams000, readDirParams, syncFormEffective, effectiveState000,
      truthyOptRead]
    by_cases horder : order = "" <;> by_cases hdir : dir = "asc" <;>
      simp [horder, hdir, defaultDirFor, DEFAULT_ORDER, DEFAULT_DIR]
  · intro hb sort base
    obtain ⟨g, c, l, s⟩ := hb
    obtain ⟨o, d⟩ := sort
    constructor
    · simp only [buildUrlWithParams001, readHbEffective, readHbParams, effectiveState001,
        emptyQuery]
      congr 1 <;> exact hbReadChain _
    · simp only [buildUrlWithParams001, readSortParams, effectiveState001, Option.getD_some]
      by_cases ho : jsTrim o = "" <;> by_cases hd : d = "asc" <;>
        simp [ho, hd, jsTrim_last_seen, jsTrim_idem]

/-- Claim C10: fetchUsersPage always requests order last_seen with asc
false, for every filter selection and page, and reports has-more exactly
when the returned page holds the configured page size of users. -/
theorem claim_c10_fetchUsersPage (filters : Filters) (page : Nat) :
    (fetchUsersPageParams filters page).order = "last_seen" ∧
    (fetchUsersPageParams filters page).asc = "false" ∧
    ∀ users : List String,
      fetchUsersPageHasMore users = true ↔ users.length = searchPerPage := by
  refine ⟨rfl, rfl, fun users => ?_⟩
  simp [fetchUsersPageHasMore]

/-- Claim C4 counterexample: the claim fails twice.  In the environment
where the button never exists and the list grows on every poll, the
loop never returns, refuting termination for every environment; and in
the environment where the button stays enabled and the list never grows
at all (it stops growing after N = 0 clicks), the routine still clicks
200 times, far beyond N plus the settle window of four polls. -/
theorem claim_c4_counterexample :
    ¬ ensureTerminatesOn growingEnv 200 ∧
    (ensureAllUsersLoadedRun stuckEnv 200 10401).finished = true ∧
    (ensureAllUsersLoadedRun stuckEnv 200 10401).loops = 200 := by
  refine ⟨?_, ?_, ?_⟩
  · rintro ⟨fuel, hf⟩
    rw [growingEnv_never_finishes fuel] at hf
    exact Bool.false_ne_true hf
  · rw [stuckEnv_run_result]
  · rw [stuckEnv_run_result]
    rfl

/-- Claim C4 amended: in every environment ensureAllUsersLoaded invokes
the load-more control at most maxLoops times (default 200); when the
list stops growing and the control then disappears, the routine
terminates within the settle window after the last growth (verified in
the simulation where growth follows each of three clicks and the button
then disappears: it returns after exactly 3 clicks at time 1400, which
is the last growth at 600 plus the 800 settle window); a control that
stays enabled instead keeps being clicked up to the maxLoops bound, and
an absent control with a forever-growing list keeps the loop polling
with no termination bound. -/
theorem claim_c4_amended :
    (∀ (env : DirEnv) (maxLoops fuel : Nat),
      (ensureAllUsersLoadedRun env maxLoops fuel).loops ≤ ensureMaxLoops maxLoops) ∧
    (ensureAllUsersLoadedRun settleEnv 200 40).finished = true ∧
    (ensureAllUsersLoadedRun settleEnv 200 40).loops = 3 ∧
    (ensureAllUsersLoadedRun settleEnv 200 40).time = 1400 := by
  refine ⟨?_, by decide, by decide, by decide⟩
  intro env maxLoops fuel
  exact runLoad_loops_le env (ensureMaxLoops maxLoops) fuel initLoadState (Nat.zero_le _)

/-- Claim C5 counterexample: with an active filter, a first page that
comes back full and a second page request that fails, the failing
request is not treated as zero matches: the match set keeps the first
page, a card of a matched user stays visible and the empty-state message
is not shown. -/
theorem claim_c5_counterexample :
    (applyFiltersBySet oneFilterForm
        (submitActiveMatchSet (buildFiltersFromForm oneFilterForm) laterFailResp)
        [some "u0"]).emptyShown = false ∧
    (applyFiltersBySet oneFilterForm
        (submitActiveMatchSet (buildFiltersFromForm oneFilterForm) laterFailResp)
        [some "u0"]).visibleCount = 1 ∧
    submitActiveMatchSet (buildFiltersFromForm oneFilterForm) laterFailResp ≠ some [] := by
  refine ⟨by decide, by decide, by decide⟩

/-- Claim C5 amended: in the replace-with-fetched-page variant a failed
first-page fetch sets has-more to false and shows the empty-state
message; in the hide-in-place variant a match-set fetch whose first
request fails produces an empty allowed-set, under which every card is
hidden and the empty-state message is visible. -/
theorem claim_c5_amended :
    (∀ s : SearchUiState,
      (renderFirstPage (.error ()) s).searchHasMore = false ∧
      (renderFirstPage (.error ()) s).emptyShown = true) ∧
    (∀ (form : FormValues) (resp : FetchResponses),
      (buildFiltersFromForm form).hasAnyFilter = true →
      resp 1 = .error () →
      submitActiveMatchSet (buildFiltersFromForm form) resp = some [] ∧
      ∀ cards : List (Option String),
        (applyFiltersBySet form (some []) cards).visibleCount = 0 ∧
        (applyFiltersBySet form (some []) cards).emptyShown = true) := by
  constructor
  · intro s
    exact ⟨rfl, rfl⟩
  · intro form resp hany herr
    have hfetch : fetchMatchingUsernames (buildFiltersFromForm form) resp = some [] := by
      unfold fetchMatchingUsernames
      rw [hany]
      have h300 : (300 : Nat) = 299 + 1 := rfl
      rw [h300, fetchMatchingGo_error resp 299 1 [] herr]
      rfl
    refine ⟨?_, fun cards => applyFilters_empty_set form cards hany⟩
    unfold submitActiveMatchSet
    rw [hfetch]
    rfl

/-- Claim C5 amended witness: concrete run of the amended claim with one
active filter, an always-failing endpoint and two cards. -/
theorem claim_c5_amended_witness :
    submitActiveMatchSet (buildFiltersFromForm oneFilterForm) failAllResp = some [] ∧
    (applyFiltersBySet oneFilterForm (some []) [some "alice", none]).visibleCount = 0 ∧
    (applyFiltersBySet oneFilterForm (some []) [some "alice", none]).emptyShown = true := by
  have h := claim_c5_amended.2 oneFilterForm failAllResp (by decide) rfl
  exact ⟨h.1, (h.2 [some "alice", none]).1, (h.2 [some "alice", none]).2⟩

/-- Claim C6 counterexample: a list whose only child is a loading
placeholder with no avatar and no username still gets cached as the
clone template, although it fails every acceptance condition of the
spec. -/
theorem claim_c6_counterexample :
    ensureSectionsTemplate [skeletonCard] = some skeletonCard ∧
    specTemplateAccepted skeletonCard = false := by
  exact ⟨rfl, by decide⟩

/-- Claim C6 amended: whenever the template node is cached, by
ensureSections or by the renderFirstPage refresh, it is exactly the
first child of the section at that moment, with no acceptance condition
checked, so a skeleton or placeholder first child is cached as is. -/
theorem claim_c6_amended (children : List DomCard) (c : DomCard)
    (h : ensureSectionsTemplate children = some c ∨
      renderFirstPageTemplate none children = some c) :
    children.head? = some c ∧ c ∈ children := by
  have hh : children.head? = some c := by
    cases h with
    | inl h1 => exact h1
    | inr h2 => exact h2
  refine ⟨hh, ?_⟩
  cases children with
  | nil => simp at hh
  | cons a t =>
    simp at hh
    exact hh ▸ List.mem_cons_self a t

/-- Claim C6 amended witness: the amended claim applied to the skeleton
singleton section. -/
theorem claim_c6_amended_witness :
    [skeletonCard].head? = some skeletonCard ∧ skeletonCard ∈ [skeletonCard] :=
  claim_c6_amended [skeletonCard] skeletonCard (Or.inl rfl)

/-- Claim C7: starting from ensureSections, which creates the results
container hidden next to the still-visible original section, every
sequence of the display-changing operations (repeated ensureSections,
renderFirstPage with or without passing its guards, exitSearchMode)
keeps exactly one of the two sections visible. -/
theorem claim_c7_visibility (saved : String) (h : saved ≠ "none") :
    displayVisible (initVisState saved).resultsDisplay = false ∧
    displayVisible (initVisState saved).originalDisplay = true ∧
    ∀ ops : List VisOp, exactlyOneVisible (ops.foldl applyVisOp (initVisState saved)) := by
  have hsavedVis : displayVisible saved = true := by
    simp [displayVisible, bne_iff_ne, h]
  have step : ∀ (s : VisState) (op : VisOp), s.savedDisplay = saved →
      exactlyOneVisible s →
      exactlyOneVisible (applyVisOp s op) ∧ (applyVisOp s op).savedDisplay = saved := by
    intro s op hs hone
    cases op with
    | ensureSectionsAgain => exact ⟨hone, hs⟩
    | renderFirstPageOp b =>
      cases b with
      | false => exact ⟨hone, hs⟩
      | true =>
        refine ⟨Or.inr ⟨?_, ?_⟩, hs⟩
        · simp [applyVisOp, displayVisible]
        · simp [applyVisOp, displayVisible]
    | exitSearchModeOp =>
      refine ⟨Or.inl ⟨?_, ?_⟩, hs⟩
      · simpa [applyVisOp, displayVisible, hs] using hsavedVis
      · simp [applyVisOp, displayVisible]
  have main : ∀ (ops : List VisOp) (s : VisState), s.savedDisplay = saved →
      exactlyOneVisible s → exactlyOneVisible (ops.foldl applyVisOp s) := by
    intro ops
    induction ops with
    | nil => intro s _ hone; exact hone
    | cons op rest ih =>
      intro s hs hone
      have hstep := step s op hs hone
      exact ih (applyVisOp s op) hstep.2 hstep.1
  refine ⟨rfl, hsavedVis, fun ops => ?_⟩
  exact main ops (initVisState saved) rfl (Or.inl ⟨hsavedVis, rfl⟩)

/-- Claim C7 witness: the invariant evaluated on entering and leaving
search mode with the usual empty saved display. -/
theorem claim_c7_visibility_witness :
    exactlyOneVisible
      ([VisOp.renderFirstPageOp true, VisOp.exitSearchModeOp].foldl
        applyVisOp (initVisState "")) :=
  (claim_c7_visibility "" (by decide)).2.2
    [VisOp.renderFirstPageOp true, VisOp.exitSearchModeOp]

/-- Claim C9: the match set is insensitive to the letter case of the
usernames the endpoint returns (two response environments equal up to
lower casing produce the same set), the per-card membership check is
insensitive to the letter case of the card username, and with an active
filter a card with a username is shown exactly when the lower-cased
username is in the allowed set. -/
theorem claim_c9_case_insensitive :
    (∀ (filters : Filters) (resp1 resp2 : FetchResponses),
      (∀ p, lowerResp (resp1 p) = lowerResp (resp2 p)) →
      fetchMatchingUsernames filters resp1 = fetchMatchingUsernames filters resp2) ∧
    (∀ (allowedSet : Option (List String)) (u1 u2 : String),
      jsToLower u1 = jsToLower u2 →
      cardAllowed allowedSet u1 = cardAllowed allowedSet u2) ∧
    (∀ (form : FormValues) (s : List String) (u : String) (rest : List (Option String)),
      (buildFiltersFromForm form).hasAnyFilter = true →
      (applyFiltersBySet form (some s) (some u :: rest)).visible.head? =
        some (s.contains (jsToLower u))) := by
  refine ⟨?_, ?_, ?_⟩
  · intro filters r1 r2 hresp
    unfold fetchMatchingUsernames
    rw [fetchMatchingGo_congr r1 r2 hresp 300 1 []]
  · intro allowedSet u1 u2 hcase
    cases allowedSet with
    | none => rfl
    | some s => simp [cardAllowed, hcase]
  · intro form s u rest hany
    simp [applyFiltersBySet, hany, cardAllowed]

/-- Claim C9 witness: the same username in two letter cases produces the
same match set and the same membership verdict. -/
theorem claim_c9_witness :
    fetchMatchingUsernames (buildFiltersFromForm oneFilterForm) mixedCaseRespA =
      fetchMatchingUsernames (buildFiltersFromForm oneFilterForm) mixedCaseRespB ∧
    cardAllowed (some ["alice"]) "ALICE" = cardAllowed (some ["alice"]) "alice" := by
  constructor
  · refine claim_c9_case_insensitive.1 (buildFiltersFromForm oneFilterForm)
      mixedCaseRespA mixedCaseRespB ?_
    intro p
    by_cases hp : p = 1
    · subst hp
      rfl
    · simp [mixedCaseRespA, mixedCaseRespB, hp, lowerResp]
  · exact claim_c9_case_insensitive.2.1 (some ["alice"]) "ALICE" "alice" (by decide)

end UserDirectory
